import Mathlib

/-!
Verification of the image-processing pipeline of repository WB_L3_4.

The development shallowly embeds the Go sources:
  * `internal/models/models.go`   — the `Image` record (nine fields);
  * `internal/storage/storage.go` — `SaveImage`, `GetImage`, `UpdateImage`
    over an in-memory model of the `images` table (rows keep the three
    stage-status columns as `Option String`, mirroring nullable columns
    read back through `COALESCE(_, 'pending')`);
  * `internal/server/server.go`   — `handleUpload`, the per-stage trigger
    handlers, the file-serving handlers, the three stage executors
    (`ResizeHandler`, `ThumbnailHandler`, `WatermarkHandler`) and the
    full-pipeline orchestrator `ProcessImage`.

Effects the Go code performs against the outside world (directory
creation, `imaging.Save`, decoding, the watermark asset, content
sniffing) are modelled by explicit boolean environment flags passed to
the embedded functions; the branch structure of the Go code is kept
verbatim.
-/

namespace WB

/-- Model of `models.Image` from `internal/models/models.go`: nine fields, statuses
are the Go strings "pending" / "processing" / "partial" / "done" / "error".
The 128-bit UUID is modelled as `Nat`. -/
structure Image where
  id : Nat
  status : String
  originalPath : String
  processedPath : String
  thumbnailPath : String
  watermarkedPath : String
  resizeStatus : String
  thumbnailStatus : String
  watermarkStatus : String
deriving DecidableEq, Repr

/-- A stored row of the `images` table.  The three stage-status columns were
added by an additive migration and may be NULL in old rows, hence
`Option String`. -/
structure Row where
  id : Nat
  status : String
  originalPath : String
  processedPath : String
  thumbnailPath : String
  watermarkedPath : String
  resizeStatus : Option String
  thumbnailStatus : Option String
  watermarkStatus : Option String
deriving DecidableEq, Repr

/-- The `images` table, modelled as a list of rows. -/
abbrev Store := List Row

/-- The row written by `storage.SaveImage`'s INSERT (new-schema path,
all nine columns). -/
def rowOfImage (img : Image) : Row :=
  ⟨img.id, img.status, img.originalPath, img.processedPath, img.thumbnailPath,
   img.watermarkedPath, some img.resizeStatus, some img.thumbnailStatus,
   some img.watermarkStatus⟩

/-- The projection performed by `storage.GetImage`'s SELECT:
`COALESCE(resize_status, 'pending')` etc. -/
def imageOfRow (r : Row) : Image :=
  ⟨r.id, r.status, r.originalPath, r.processedPath, r.thumbnailPath,
   r.watermarkedPath, r.resizeStatus.getD "pending",
   r.thumbnailStatus.getD "pending", r.watermarkStatus.getD "pending"⟩

/-- Model of `storage.SaveImage`: INSERT of all nine columns; fails (PRIMARY KEY
violation) when a row with the same id already exists. -/
def SaveImage (img : Image) (s : Store) : Option Store :=
  if s.any (fun r => r.id == img.id) then none else some (rowOfImage img :: s)

/-- Model of `storage.GetImage`: SELECT ... WHERE id = $1, with COALESCE defaults. -/
def GetImage (i : Nat) (s : Store) : Option Image :=
  (s.find? (fun r => r.id == i)).map imageOfRow

/-- The SET clause of `storage.UpdateImage`'s UPDATE statement: it writes
`status`, `processed_path`, `thumbnail_path`, `watermarked_path`,
`resize_status`, `thumbnail_status` and `watermark_status` of the row whose
id matches — and does NOT write `original_path`. -/
def applyUpdate (img : Image) (r : Row) : Row :=
  if r.id == img.id then
    { r with
      status := img.status
      processedPath := img.processedPath
      thumbnailPath := img.thumbnailPath
      watermarkedPath := img.watermarkedPath
      resizeStatus := some img.resizeStatus
      thumbnailStatus := some img.thumbnailStatus
      watermarkStatus := some img.watermarkStatus }
  else r

/-- Model of `storage.UpdateImage`: UPDATE ... WHERE id = $1 (0 rows affected is
not an error in the Go code, so the operation is total). -/
def UpdateImage (img : Image) (s : Store) : Store :=
  s.map (applyUpdate img)

/-- Model of `storage.DeleteImage`: DELETE FROM images WHERE id = $1. -/
def DeleteImage (i : Nat) (s : Store) : Store :=
  s.filter (fun r => !(r.id == i))

/-- Whether the store holds a row with the given id. -/
def hasId (i : Nat) (s : Store) : Bool :=
  (s.find? (fun r => r.id == i)).isSome

/- ### Stage executors (`ImageProcessor` in `internal/server/server.go`) -/

/-- The configuration fields of `models.Config` that the processing code
reads. -/
structure Config where
  storagePath : String
deriving DecidableEq, Repr

/-- Outside-world outcomes for one stage-executor run: whether
`os.MkdirAll` of the processed directory succeeds, and whether
`imaging.Save` of the output file succeeds (`imaging.Resize` /
`imaging.Thumbnail` / `imaging.Overlay` themselves are total). -/
structure StageEnv where
  mkdirOK : Bool
  saveOK : Bool
deriving DecidableEq, Repr

/-- Outside-world outcomes for the watermark executor: it additionally
opens the overlay asset `watermark.png`, which may be missing. -/
structure WatermarkEnv where
  mkdirOK : Bool
  assetOK : Bool
  saveOK : Bool
deriving DecidableEq, Repr

/-- Model of `ImageProcessor.ResizeHandler`: set `ResizeStatus` to "processing" and
persist; on mkdir or save failure set it to "error", persist and report
failure; on success set `ProcessedPath` and status "done", persist, report
success.  Returns the mutated record (the Go code mutates `*models.Image`
in place), the store after the handler's writes, and the success flag. -/
def ResizeHandler (cfg : Config) (env : StageEnv) (img : Image) (s : Store) :
    Image × Store × Bool :=
  let img1 := { img with resizeStatus := "processing" }
  let s1 := UpdateImage img1 s
  if env.mkdirOK = false then
    let img2 := { img1 with resizeStatus := "error" }
    (img2, UpdateImage img2 s1, false)
  else
    if env.saveOK = false then
      let img2 := { img1 with resizeStatus := "error" }
      (img2, UpdateImage img2 s1, false)
    else
      let resizedPath := cfg.storagePath ++ "/processed/" ++ toString img.id ++ "_resized.jpg"
      let img2 := { img1 with
        processedPath := resizedPath
        resizeStatus := "done" }
      (img2, UpdateImage img2 s1, true)

/-- Model of `ImageProcessor.ThumbnailHandler`: same shape as the resize executor,
writing `ThumbnailPath` and `ThumbnailStatus`. -/
def ThumbnailHandler (cfg : Config) (env : StageEnv) (img : Image) (s : Store) :
    Image × Store × Bool :=
  let img1 := { img with thumbnailStatus := "processing" }
  let s1 := UpdateImage img1 s
  if env.mkdirOK = false then
    let img2 := { img1 with thumbnailStatus := "error" }
    (img2, UpdateImage img2 s1, false)
  else
    if env.saveOK = false then
      let img2 := { img1 with thumbnailStatus := "error" }
      (img2, UpdateImage img2 s1, false)
    else
      let thumbPath := cfg.storagePath ++ "/processed/" ++ toString img.id ++ "_thumb.jpg"
      let img2 := { img1 with
        thumbnailPath := thumbPath
        thumbnailStatus := "done" }
      (img2, UpdateImage img2 s1, true)

/-- Model of `ImageProcessor.WatermarkHandler`: like the others, but between the
mkdir step and the save step it opens the watermark overlay asset; a
missing asset is a per-stage error (status "error", failure returned). -/
def WatermarkHandler (cfg : Config) (env : WatermarkEnv) (img : Image) (s : Store) :
    Image × Store × Bool :=
  let img1 := { img with watermarkStatus := "processing" }
  let s1 := UpdateImage img1 s
  if env.mkdirOK = false then
    let img2 := { img1 with watermarkStatus := "error" }
    (img2, UpdateImage img2 s1, false)
  else
    if env.assetOK = false then
      let img2 := { img1 with watermarkStatus := "error" }
      (img2, UpdateImage img2 s1, false)
    else
      if env.saveOK = false then
        let img2 := { img1 with watermarkStatus := "error" }
        (img2, UpdateImage img2 s1, false)
      else
        let wmPath := cfg.storagePath ++ "/processed/" ++ toString img.id ++ "_watermarked.jpg"
        let img2 := { img1 with
          watermarkedPath := wmPath
          watermarkStatus := "done" }
        (img2, UpdateImage img2 s1, true)

/- ### Pipeline orchestrator (`server.ProcessImage`) -/

/-- One of the three derivative-generation stages. -/
inductive PStage
  | resize
  | thumbnail
  | watermark
deriving DecidableEq, Repr

/-- Outside-world outcomes for one orchestrator run: whether
`imaging.Open` of the source decodes, plus the three per-stage
environments. -/
structure PipelineEnv where
  decodeOK : Bool
  resizeEnv : StageEnv
  thumbEnv : StageEnv
  wmEnv : WatermarkEnv
deriving DecidableEq, Repr

/-- The observable result of one `ProcessImage` run: the store afterwards,
whether the function returned `nil` (success), and which stage executors
were invoked. -/
structure RunResult where
  store : Store
  ok : Bool
  executed : List PStage
deriving DecidableEq, Repr

/-- Model of `server.ProcessImage`: fetch the record; if aggregate status is not
"pending" return success untouched (idempotent re-delivery); set the
aggregate to "processing" and persist; decode the source once — on decode
failure mark the aggregate and all three stage statuses "error", persist
and return failure; otherwise run the three stage executors in order and
derive the final aggregate from the number of executor failures
(3 → "error", 1 or 2 → "partial", 0 → "done"), persist, and return
success exactly when no executor failed. -/
def ProcessImage (cfg : Config) (env : PipelineEnv) (i : Nat) (s : Store) :
    RunResult :=
  match GetImage i s with
  | none => ⟨s, false, []⟩
  | some img0 =>
    if img0.status ≠ "pending" then ⟨s, true, []⟩
    else
      let img1 := { img0 with status := "processing" }
      let s1 := UpdateImage img1 s
      if env.decodeOK = false then
        let img2 := { img1 with
          status := "error"
          resizeStatus := "error"
          thumbnailStatus := "error"
          watermarkStatus := "error" }
        ⟨UpdateImage img2 s1, false, []⟩
      else
        let R := ResizeHandler cfg env.resizeEnv img1 s1
        let T := ThumbnailHandler cfg env.thumbEnv R.1 R.2.1
        let W := WatermarkHandler cfg env.wmEnv T.1 T.2.1
        let k : Nat := (if R.2.2 then 0 else 1) + (if T.2.2 then 0 else 1) +
          (if W.2.2 then 0 else 1)
        let finalStatus := if k = 3 then "error" else if 0 < k then "partial" else "done"
        let img5 := { W.1 with status := finalStatus }
        ⟨UpdateImage img5 W.2.1, decide (k = 0), [.resize, .thumbnail, .watermark]⟩

/-- Number of stage executors that the environment makes fail (resize and
thumbnail fail iff mkdir or save fails; watermark additionally iff the
overlay asset is missing). -/
def stageFailures (env : PipelineEnv) : Nat :=
  (if env.resizeEnv.mkdirOK && env.resizeEnv.saveOK then 0 else 1) +
  (if env.thumbEnv.mkdirOK && env.thumbEnv.saveOK then 0 else 1) +
  (if env.wmEnv.mkdirOK && env.wmEnv.assetOK && env.wmEnv.saveOK then 0 else 1)

/- ### On-demand single-stage triggers
(`handleResizeImage`, `handleThumbnailImage`, `handleWatermarkImage`) -/

/-- The body a trigger handler answers with. -/
inductive TriggerResp
  | notFound
  | alreadyInProgress
  | alreadyDone (path : String)
  | started
deriving DecidableEq, Repr

/-- The HTTP status code attached to each trigger response in the Go
handlers. -/
def TriggerResp.code : TriggerResp → Nat
  | .notFound => 404
  | .alreadyInProgress => 202
  | .alreadyDone _ => 200
  | .started => 202

/-- The synchronous, observable outcome of one trigger handler call: the
response, how many background stage-executor runs were dispatched
(`go func` launches), and the store as the handler leaves it (the handler
itself writes nothing; the dispatched executor runs later). -/
structure TriggerResult where
  resp : TriggerResp
  dispatched : Nat
  store : Store
deriving DecidableEq, Repr

/-- Model of `server.handleResizeImage` (guard logic): "processing" → already in
progress, nothing dispatched; "done" → answer with the stored
`ProcessedPath`; otherwise dispatch exactly one background executor run
and answer 202. -/
def handleResizeImage (i : Nat) (s : Store) : TriggerResult :=
  match GetImage i s with
  | none => ⟨.notFound, 0, s⟩
  | some img =>
    if img.resizeStatus = "processing" then ⟨.alreadyInProgress, 0, s⟩
    else if img.resizeStatus = "done" then ⟨.alreadyDone img.processedPath, 0, s⟩
    else ⟨.started, 1, s⟩

/-- Model of `server.handleThumbnailImage` (guard logic). -/
def handleThumbnailImage (i : Nat) (s : Store) : TriggerResult :=
  match GetImage i s with
  | none => ⟨.notFound, 0, s⟩
  | some img =>
    if img.thumbnailStatus = "processing" then ⟨.alreadyInProgress, 0, s⟩
    else if img.thumbnailStatus = "done" then ⟨.alreadyDone img.thumbnailPath, 0, s⟩
    else ⟨.started, 1, s⟩

/-- Model of `server.handleWatermarkImage` (guard logic). -/
def handleWatermarkImage (i : Nat) (s : Store) : TriggerResult :=
  match GetImage i s with
  | none => ⟨.notFound, 0, s⟩
  | some img =>
    if img.watermarkStatus = "processing" then ⟨.alreadyInProgress, 0, s⟩
    else if img.watermarkStatus = "done" then ⟨.alreadyDone img.watermarkedPath, 0, s⟩
    else ⟨.started, 1, s⟩

/- ### File-serving handlers -/

/-- The file system, as the set of paths `os.Stat` finds. -/
abbrev FS := List String

/-- Model of `Server.fileExists`. -/
def fileExists (fs : FS) (p : String) : Bool :=
  fs.contains p

/-- What a read-side handler answers with. -/
inductive FileResp
  | file (path : String)
  | notFound
deriving DecidableEq, Repr

/-- Model of `server.handleGetThumbnail`: note the first branch tests the AGGREGATE
`img.Status`, not `img.ThumbnailStatus` (transcribed verbatim from the
source). -/
def handleGetThumbnail (fs : FS) (i : Nat) (s : Store) : FileResp :=
  match GetImage i s with
  | none => .notFound
  | some img =>
    if img.status ≠ "done" ∨ img.thumbnailPath = "" ∨ fileExists fs img.thumbnailPath = false then
      if fileExists fs img.originalPath then .file img.originalPath else .notFound
    else .file img.thumbnailPath

/-- Model of `server.handleGetWatermarkedImage`: here the first branch tests the
stage status `img.WatermarkStatus`. -/
def handleGetWatermarkedImage (fs : FS) (i : Nat) (s : Store) : FileResp :=
  match GetImage i s with
  | none => .notFound
  | some img =>
    if img.watermarkStatus ≠ "done" ∨ img.watermarkedPath = "" ∨ fileExists fs img.watermarkedPath = false then
      if fileExists fs img.originalPath then .file img.originalPath else .notFound
    else .file img.watermarkedPath

/- ### Upload (`server.handleUpload`) -/

/-- Helper for Go's `filepath.Ext`, scanning the path from its end: stop with "" at a
path separator, return the suffix from the final dot otherwise.  The
argument is the reversed character list; the accumulator collects the
scanned suffix in forward order. -/
def goExtRev : List Char → List Char → String
  | [], _ => ""
  | c :: rest, acc =>
    if c = '/' then ""
    else if c = '.' then String.mk (c :: acc)
    else goExtRev rest (c :: acc)

/-- Model of Go's `filepath.Ext(path)`. -/
def goExt (path : String) : String :=
  goExtRev path.data.reverse []

/-- ASCII case folding of one character (the extension characters the
upload path manipulates are ASCII; Go's Unicode tables agree with this on
ASCII). -/
def lowerChar (c : Char) : Char :=
  if 'A' ≤ c ∧ c ≤ 'Z' then Char.ofNat (c.toNat + 32) else c

/-- Model of Go's `strings.ToLower` (ASCII fragment). -/
def goToLower (s : String) : String :=
  String.mk (s.data.map lowerChar)

/-- The extension chosen by `handleUpload`:
`ext := strings.ToLower(filepath.Ext(file.Filename))`, defaulting to
".jpg" when empty. -/
def uploadExt (filename : String) : String :=
  let ext := goToLower (goExt filename)
  if ext = "" then ".jpg" else ext

/-- The path `handleUpload` stores the original bytes under:
`filepath.Join(cfg.StoragePath, "original", id.String()+ext)`. -/
def uploadOriginalPath (storagePath idStr filename : String) : String :=
  (storagePath ++ "/original/" ++ idStr) ++ uploadExt filename

/-- Model of `Server.isValidImageType`: the sniffed content type must be one of the
four accepted values. -/
def validContentType (ct : String) : Bool :=
  ct == "image/jpeg" || ct == "image/jpg" || ct == "image/png" || ct == "image/gif"

/-- Outside-world outcomes for one `handleUpload` call: the sniffed
content type of the first 512 bytes, the declared size, the I/O outcomes
of `os.MkdirAll` / `os.Create` / `file.Open` / `io.Copy`, and whether
`image.DecodeConfig` accepts the written bytes. -/
structure UploadEnv where
  contentType : String
  size : Nat
  mkdirOK : Bool
  createOK : Bool
  openOK : Bool
  copyOK : Bool
  decodeOK : Bool
deriving DecidableEq, Repr

/-- The observable outcome of `handleUpload`: HTTP status code, the store
and the file system afterwards. -/
structure UploadResult where
  code : Nat
  store : Store
  fs : FS
deriving DecidableEq, Repr

/-- Model of `server.handleUpload`: sniff/validate the content type (400), check
the 10 MiB size limit (400), write the file, validate that the bytes
decode (removing the file and answering 400 if not), insert the record
with aggregate and all three stage statuses "pending" (removing the file
and answering 500 on insert failure), and answer 200.  A Kafka publish
failure after the insert is logged and ignored. -/
def handleUpload (cfg : Config) (env : UploadEnv) (id : Nat) (filename : String)
    (s : Store) (fs : FS) : UploadResult :=
  if validContentType env.contentType = false then ⟨400, s, fs⟩
  else if 10 * 1024 * 1024 < env.size then ⟨400, s, fs⟩
  else
    let originalPath := uploadOriginalPath cfg.storagePath (toString id) filename
    if env.mkdirOK = false then ⟨500, s, fs⟩
    else if env.createOK = false then ⟨500, s, fs⟩
    else
      let fs1 := originalPath :: fs
      if env.openOK = false then ⟨500, s, fs1⟩
      else if env.copyOK = false then ⟨500, s, fs1⟩
      else if env.decodeOK = false then ⟨400, s, fs1.erase originalPath⟩
      else
        let img : Image := ⟨id, "pending", originalPath, "", "", "",
          "pending", "pending", "pending"⟩
        match SaveImage img s with
        | none => ⟨500, s, fs1.erase originalPath⟩
        | some s2 => ⟨200, s2, fs1⟩

/- ### Concrete sample inputs (used by witnesses and counterexamples) -/

def exCfg : Config := ⟨"st"⟩

/-- A freshly uploaded record (row form). -/
def exRowPending : Row :=
  ⟨1, "pending", "o.jpg", "", "", "", some "pending", some "pending", some "pending"⟩

/-- A fully processed record (row form). -/
def exRowDone : Row :=
  ⟨2, "done", "o2.jpg", "p2.jpg", "t2.jpg", "w2.jpg", some "done", some "done", some "done"⟩

/-- Pipeline environment: source decodes, resize's save fails, the other
two stages succeed. -/
def exEnvResizeFail : PipelineEnv := ⟨true, ⟨true, false⟩, ⟨true, true⟩, ⟨true, true, true⟩⟩

/-- Pipeline environment: the source image does not decode. -/
def exEnvDecodeFail : PipelineEnv := ⟨false, ⟨true, true⟩, ⟨true, true⟩, ⟨true, true, true⟩⟩

/-- A stored row whose `original_path` is "old.jpg". -/
def exRowC5 : Row :=
  ⟨3, "pending", "old.jpg", "", "", "", some "pending", some "pending", some "pending"⟩

/-- An in-memory record for the same id whose `originalPath` differs from
the stored row's. -/
def exImgC5 : Image := ⟨3, "done", "new.jpg", "p.jpg", "t.jpg", "w.jpg", "done", "done", "done"⟩

/-- A record whose thumbnail stage is "done" (thumbnail file present on
disk) while the aggregate status is only "partial" (its watermark stage
failed). -/
def exRowC6 : Row :=
  ⟨4, "partial", "o6.jpg", "", "t6.jpg", "", some "pending", some "done", some "error"⟩

def exFS6 : FS := ["t6.jpg", "o6.jpg"]

/-- The watermark-side mirror image of `exRowC6`: watermark stage "done",
aggregate only "partial". -/
def exRowC6w : Row :=
  ⟨5, "partial", "o7.jpg", "", "", "w7.jpg", some "pending", some "error", some "done"⟩

def exFS6w : FS := ["w7.jpg", "o7.jpg"]

/-- A fresh record to insert. -/
def exImgC7 : Image := ⟨6, "pending", "a.jpg", "", "", "", "pending", "pending", "pending"⟩

/-- Upload whose written bytes do not decode as an image (corrupted file
with a valid-looking sniffed type). -/
def exEnvUploadCorrupt : UploadEnv := ⟨"image/jpeg", 5, true, true, true, true, false⟩

/- ### Store lemmas -/

theorem applyUpdate_id (img : Image) (r : Row) :
    (applyUpdate img r).id = r.id := by
  unfold applyUpdate; split <;> rfl

theorem applyUpdate_originalPath (img : Image) (r : Row) :
    (applyUpdate img r).originalPath = r.originalPath := by
  unfold applyUpdate; split <;> rfl

theorem find?_update (img : Image) (i : Nat) (s : Store) :
    (UpdateImage img s).find? (fun r => r.id == i) =
      (s.find? (fun r => r.id == i)).map (applyUpdate img) := by
  unfold UpdateImage
  rw [List.find?_map]
  have hcomp : ((fun r : Row => r.id == i) ∘ applyUpdate img) =
      (fun r : Row => r.id == i) := by
    funext r
    show ((applyUpdate img r).id == i) = (r.id == i)
    rw [applyUpdate_id]
  rw [hcomp]

theorem getImage_update (img : Image) (i : Nat) (s : Store) :
    GetImage i (UpdateImage img s) =
      (s.find? (fun r => r.id == i)).map (fun r => imageOfRow (applyUpdate img r)) := by
  unfold GetImage
  rw [find?_update, Option.map_map]
  rfl

theorem imageOfRow_applyUpdate (img : Image) (r : Row)
    (h : (r.id == img.id) = true) :
    imageOfRow (applyUpdate img r) = { img with originalPath := r.originalPath } := by
  have hid : r.id = img.id := eq_of_beq h
  unfold applyUpdate imageOfRow
  rw [if_pos h]
  simp only [Option.getD_some]
  rw [hid]

theorem hasId_update (img : Image) (i : Nat) (s : Store) :
    hasId i (UpdateImage img s) = hasId i s := by
  unfold hasId
  rw [find?_update]
  cases s.find? (fun r => r.id == i) <;> rfl

theorem hasId_of_getImage {i : Nat} {s : Store} {img : Image}
    (h : GetImage i s = some img) : hasId i s = true := by
  unfold GetImage at h
  unfold hasId
  cases hf : s.find? (fun r => r.id == i) with
  | none => rw [hf] at h; exact absurd h (by simp)
  | some r => rfl

theorem getImage_id {i : Nat} {s : Store} {img : Image}
    (h : GetImage i s = some img) : img.id = i := by
  unfold GetImage at h
  cases hf : s.find? (fun r => r.id == i) with
  | none => rw [hf] at h; exact absurd h (by simp)
  | some r =>
    rw [hf] at h
    have hp := List.find?_some hf
    have hp' : (r.id == i) = true := by simpa using hp
    have himg : imageOfRow r = img := by
      simpa using h
    rw [← himg]
    exact eq_of_beq hp'

/-- Central helper: updating a present id stores exactly the in-memory
record, except that `original_path` keeps its previously stored value. -/
theorem getImage_update_present (img : Image) (i : Nat) (s : Store)
    (hpres : hasId i s = true) (hid : img.id = i) :
    ∃ orig, (GetImage i s).map Image.originalPath = some orig ∧
      GetImage i (UpdateImage img s) = some { img with originalPath := orig } := by
  unfold hasId at hpres
  cases hf : s.find? (fun r => r.id == i) with
  | none => rw [hf] at hpres; exact absurd hpres (by simp)
  | some r =>
    have hp := List.find?_some hf
    have hp' : (r.id == i) = true := by simpa using hp
    have hpi : (r.id == img.id) = true := by rw [hid]; exact hp'
    refine ⟨r.originalPath, ?_, ?_⟩
    · unfold GetImage
      rw [hf]
      rfl
    · rw [getImage_update, hf, Option.map_some']
      rw [imageOfRow_applyUpdate img r hpi]

/- ### Stage-executor lemmas -/

theorem resizeHandler_ok (cfg : Config) (env : StageEnv) (img : Image) (s : Store) :
    (ResizeHandler cfg env img s).2.2 = (env.mkdirOK && env.saveOK) := by
  rcases env with ⟨mk, sv⟩
  cases mk <;> cases sv <;> rfl

theorem resizeHandler_id (cfg : Config) (env : StageEnv) (img : Image) (s : Store) :
    (ResizeHandler cfg env img s).1.id = img.id := by
  rcases env with ⟨mk, sv⟩
  cases mk <;> cases sv <;> rfl

theorem resizeHandler_status (cfg : Config) (env : StageEnv) (img : Image) (s : Store) :
    (ResizeHandler cfg env img s).1.status = img.status := by
  rcases env with ⟨mk, sv⟩
  cases mk <;> cases sv <;> rfl

theorem resizeHandler_hasId (cfg : Config) (env : StageEnv) (img : Image)
    (s : Store) (i : Nat) :
    hasId i (ResizeHandler cfg env img s).2.1 = hasId i s := by
  rcases env with ⟨mk, sv⟩
  cases mk <;> cases sv <;> simp [ResizeHandler, hasId_update]

theorem thumbnailHandler_ok (cfg : Config) (env : StageEnv) (img : Image) (s : Store) :
    (ThumbnailHandler cfg env img s).2.2 = (env.mkdirOK && env.saveOK) := by
  rcases env with ⟨mk, sv⟩
  cases mk <;> cases sv <;> rfl

theorem thumbnailHandler_id (cfg : Config) (env : StageEnv) (img : Image) (s : Store) :
    (ThumbnailHandler cfg env img s).1.id = img.id := by
  rcases env with ⟨mk, sv⟩
  cases mk <;> cases sv <;> rfl

theorem thumbnailHandler_status (cfg : Config) (env : StageEnv) (img : Image) (s : Store) :
    (ThumbnailHandler cfg env img s).1.status = img.status := by
  rcases env with ⟨mk, sv⟩
  cases mk <;> cases sv <;> rfl

theorem thumbnailHandler_hasId (cfg : Config) (env : StageEnv) (img : Image)
    (s : Store) (i : Nat) :
    hasId i (ThumbnailHandler cfg env img s).2.1 = hasId i s := by
  rcases env with ⟨mk, sv⟩
  cases mk <;> cases sv <;> simp [ThumbnailHandler, hasId_update]

theorem watermarkHandler_ok (cfg : Config) (env : WatermarkEnv) (img : Image) (s : Store) :
    (WatermarkHandler cfg env img s).2.2 = (env.mkdirOK && env.assetOK && env.saveOK) := by
  rcases env with ⟨mk, av, sv⟩
  cases mk <;> cases av <;> cases sv <;> rfl

theorem watermarkHandler_id (cfg : Config) (env : WatermarkEnv) (img : Image) (s : Store) :
    (WatermarkHandler cfg env img s).1.id = img.id := by
  rcases env with ⟨mk, av, sv⟩
  cases mk <;> cases av <;> cases sv <;> rfl

theorem watermarkHandler_status (cfg : Config) (env : WatermarkEnv) (img : Image) (s : Store) :
    (WatermarkHandler cfg env img s).1.status = img.status := by
  rcases env with ⟨mk, av, sv⟩
  cases mk <;> cases av <;> cases sv <;> rfl

theorem watermarkHandler_hasId (cfg : Config) (env : WatermarkEnv) (img : Image)
    (s : Store) (i : Nat) :
    hasId i (WatermarkHandler cfg env img s).2.1 = hasId i s := by
  rcases env with ⟨mk, av, sv⟩
  cases mk <;> cases av <;> cases sv <;> simp [WatermarkHandler, hasId_update]

/-- The two ways of writing the aggregate-status decision coincide for
every combination of the three stage outcomes. -/
theorem aggregate_cases (a b c : Bool) :
    (if ((if a then 0 else 1) + (if b then 0 else 1) + (if c then 0 else 1) : Nat) = 3
      then "error"
      else if 0 < ((if a then 0 else 1) + (if b then 0 else 1) + (if c then 0 else 1) : Nat)
        then "partial" else "done") =
    (if ((if a then 0 else 1) + (if b then 0 else 1) + (if c then 0 else 1) : Nat) = 0
      then "done"
      else if ((if a then 0 else 1) + (if b then 0 else 1) + (if c then 0 else 1) : Nat) = 3
        then "error" else "partial") := by
  cases a <;> cases b <;> cases c <;> rfl

/-- Specialization of `getImage_update_present` to the aggregate status of
a record whose status was just overwritten. -/
theorem getImage_update_setStatus (img : Image) (st : String) (i : Nat) (s : Store)
    (hpres : hasId i s = true) (hid : img.id = i) :
    (GetImage i (UpdateImage { img with status := st } s)).map Image.status = some st := by
  obtain ⟨orig, _, h⟩ :=
    getImage_update_present { img with status := st } i s hpres (by simpa using hid)
  rw [h]
  rfl

/-- C2: For every record whose aggregate status is not "pending", running
the full-pipeline orchestrator `ProcessImage` on it is a no-op: it returns
success (`ok = true`), dispatches no stage executor, and leaves the store
— hence the aggregate status, all three stage statuses, and all path
fields of every record — unchanged. -/
theorem processImage_noop_of_not_pending (cfg : Config) (env : PipelineEnv)
    (i : Nat) (s : Store) (img0 : Image)
    (hGet : GetImage i s = some img0) (h : img0.status ≠ "pending") :
    ProcessImage cfg env i s = ⟨s, true, []⟩ := by
  unfold ProcessImage
  rw [hGet]
  simp [h]

/-- Witness for C2 at a concrete input: a record with aggregate status
"done" is left untouched. -/
theorem processImage_noop_of_not_pending_witness :
    GetImage 2 [exRowDone] = some (imageOfRow exRowDone) ∧
    (imageOfRow exRowDone).status ≠ "pending" ∧
    ProcessImage exCfg exEnvResizeFail 2 [exRowDone] = ⟨[exRowDone], true, []⟩ :=
  ⟨rfl, by decide,
    processImage_noop_of_not_pending exCfg exEnvResizeFail 2 [exRowDone]
      (imageOfRow exRowDone) rfl (by decide)⟩

/-- C3: For every orchestrator run in which decoding the source fails, the
run returns failure, invokes none of the three stage executors, and the
persisted record has aggregate status "error" and all three stage statuses
"error". -/
theorem processImage_decode_failure (cfg : Config) (env : PipelineEnv)
    (i : Nat) (s : Store) (img0 : Image)
    (hGet : GetImage i s = some img0) (hPend : img0.status = "pending")
    (hDec : env.decodeOK = false) :
    (ProcessImage cfg env i s).ok = false ∧
    (ProcessImage cfg env i s).executed = [] ∧
    ∃ img', GetImage i (ProcessImage cfg env i s).store = some img' ∧
      img'.status = "error" ∧ img'.resizeStatus = "error" ∧
      img'.thumbnailStatus = "error" ∧ img'.watermarkStatus = "error" := by
  have hasid : hasId i s = true := hasId_of_getImage hGet
  have hid0 : img0.id = i := getImage_id hGet
  unfold ProcessImage
  rw [hGet]
  simp only [hPend, ne_eq, not_true_eq_false, if_false, hDec, if_true]
  refine ⟨by trivial, by trivial, ?_⟩
  have hpres1 : hasId i (UpdateImage { img0 with status := "processing" } s) = true := by
    rw [hasId_update]; exact hasid
  obtain ⟨orig, _, h⟩ :=
    getImage_update_present
      { img0 with
        status := "error"
        resizeStatus := "error"
        thumbnailStatus := "error"
        watermarkStatus := "error" }
      i (UpdateImage { img0 with status := "processing" } s) hpres1 (by simpa using hid0)
  exact ⟨_, h, rfl, rfl, rfl, rfl⟩

/-- Witness for C3 at a concrete input: the pending record with an
undecodable source ends with aggregate and all stage statuses "error". -/
theorem processImage_decode_failure_witness :
    GetImage 1 [exRowPending] = some (imageOfRow exRowPending) ∧
    (imageOfRow exRowPending).status = "pending" ∧
    exEnvDecodeFail.decodeOK = false ∧
    ((ProcessImage exCfg exEnvDecodeFail 1 [exRowPending]).ok = false ∧
     (ProcessImage exCfg exEnvDecodeFail 1 [exRowPending]).executed = [] ∧
     ∃ img', GetImage 1 (ProcessImage exCfg exEnvDecodeFail 1 [exRowPending]).store = some img' ∧
       img'.status = "error" ∧ img'.resizeStatus = "error" ∧
       img'.thumbnailStatus = "error" ∧ img'.watermarkStatus = "error") :=
  ⟨rfl, rfl, rfl,
    processImage_decode_failure exCfg exEnvDecodeFail 1 [exRowPending]
      (imageOfRow exRowPending) rfl rfl rfl⟩

/-- C1: For every orchestrator run on a pending record whose source
decodes, the final aggregate status is the pure function of the number of
failing stage executors given by the code's aggregation: 0 failures →
"done", 3 failures → "error", otherwise (1 or 2) → "partial".  The
environment `env` ranges over every combination of per-stage outcomes, so
all 8 success/failure combinations are covered. -/
theorem processImage_aggregate_status (cfg : Config) (env : PipelineEnv)
    (i : Nat) (s : Store) (img0 : Image)
    (hGet : GetImage i s = some img0) (hPend : img0.status = "pending")
    (hDec : env.decodeOK = true) :
    (GetImage i (ProcessImage cfg env i s).store).map Image.status =
      some (if stageFailures env = 0 then "done"
            else if stageFailures env = 3 then "error" else "partial") := by
  have hasid : hasId i s = true := hasId_of_getImage hGet
  have hid0 : img0.id = i := getImage_id hGet
  unfold ProcessImage
  rw [hGet]
  simp only [hPend, ne_eq, not_true_eq_false, if_false, hDec, Bool.true_eq_false]
  have hpres1 : hasId i (UpdateImage { img0 with status := "processing" } s) = true := by
    rw [hasId_update]; exact hasid
  have hid1 : ({ img0 with status := "processing" } : Image).id = i := by simpa using hid0
  have hpresR : hasId i
      (ResizeHandler cfg env.resizeEnv { img0 with status := "processing" }
        (UpdateImage { img0 with status := "processing" } s)).2.1 = true := by
    rw [resizeHandler_hasId]; exact hpres1
  have hidR : (ResizeHandler cfg env.resizeEnv { img0 with status := "processing" }
      (UpdateImage { img0 with status := "processing" } s)).1.id = i := by
    rw [resizeHandler_id]; exact hid1
  have hpresT : hasId i
      (ThumbnailHandler cfg env.thumbEnv
        (ResizeHandler cfg env.resizeEnv { img0 with status := "processing" }
          (UpdateImage { img0 with status := "processing" } s)).1
        (ResizeHandler cfg env.resizeEnv { img0 with status := "processing" }
          (UpdateImage { img0 with status := "processing" } s)).2.1).2.1 = true := by
    rw [thumbnailHandler_hasId]; exact hpresR
  have hidT : (ThumbnailHandler cfg env.thumbEnv
      (ResizeHandler cfg env.resizeEnv { img0 with status := "processing" }
        (UpdateImage { img0 with status := "processing" } s)).1
      (ResizeHandler cfg env.resizeEnv { img0 with status := "processing" }
        (UpdateImage { img0 with status := "processing" } s)).2.1).1.id = i := by
    rw [thumbnailHandler_id]; exact hidR
  have hpresW : hasId i
      (WatermarkHandler cfg env.wmEnv
        (ThumbnailHandler cfg env.thumbEnv
          (ResizeHandler cfg env.resizeEnv { img0 with status := "processing" }
            (UpdateImage { img0 with status := "processing" } s)).1
          (ResizeHandler cfg env.resizeEnv { img0 with status := "processing" }
            (UpdateImage { img0 with status := "processing" } s)).2.1).1
        (ThumbnailHandler cfg env.thumbEnv
          (ResizeHandler cfg env.resizeEnv { img0 with status := "processing" }
            (UpdateImage { img0 with status := "processing" } s)).1
          (ResizeHandler cfg env.resizeEnv { img0 with status := "processing" }
            (UpdateImage { img0 with status := "processing" } s)).2.1).2.1).2.1 = true := by
    rw [watermarkHandler_hasId]; exact hpresT
  have hidW : (WatermarkHandler cfg env.wmEnv
      (ThumbnailHandler cfg env.thumbEnv
        (ResizeHandler cfg env.resizeEnv { img0 with status := "processing" }
          (UpdateImage { img0 with status := "processing" } s)).1
        (ResizeHandler cfg env.resizeEnv { img0 with status := "processing" }
          (UpdateImage { img0 with status := "processing" } s)).2.1).1
      (ThumbnailHandler cfg env.thumbEnv
        (ResizeHandler cfg env.resizeEnv { img0 with status := "processing" }
          (UpdateImage { img0 with status := "processing" } s)).1
        (ResizeHandler cfg env.resizeEnv { img0 with status := "processing" }
          (UpdateImage { img0 with status := "processing" } s)).2.1).2.1).1.id = i := by
    rw [watermarkHandler_id]; exact hidT
  rw [getImage_update_setStatus _ _ _ _ hpresW hidW]
  rw [resizeHandler_ok, thumbnailHandler_ok, watermarkHandler_ok]
  simp only [stageFailures]
  exact congrArg some (aggregate_cases _ _ _)

/-- Witness for C1 at a concrete input: with exactly one failing stage
(resize's save fails) the aggregate ends "partial". -/
theorem processImage_aggregate_status_witness :
    GetImage 1 [exRowPending] = some (imageOfRow exRowPending) ∧
    (imageOfRow exRowPending).status = "pending" ∧
    exEnvResizeFail.decodeOK = true ∧
    (GetImage 1 (ProcessImage exCfg exEnvResizeFail 1 [exRowPending]).store).map Image.status =
      some (if stageFailures exEnvResizeFail = 0 then "done"
            else if stageFailures exEnvResizeFail = 3 then "error" else "partial") :=
  ⟨rfl, rfl, rfl,
    processImage_aggregate_status exCfg exEnvResizeFail 1 [exRowPending]
      (imageOfRow exRowPending) rfl rfl rfl⟩

/-- C4: guard logic of the three on-demand single-stage triggers, for any
existing record: stage status "processing" → "already in progress", no
executor dispatched, store untouched; "done" → answer carries the existing
output path, nothing re-run; otherwise ("pending" or "error") → exactly
one background executor run is dispatched and the immediate answer is 202. -/
theorem onDemand_trigger_guard (i : Nat) (s : Store) (img : Image)
    (hGet : GetImage i s = some img) :
    ((img.resizeStatus = "processing" →
        handleResizeImage i s = ⟨.alreadyInProgress, 0, s⟩) ∧
     (img.resizeStatus = "done" →
        handleResizeImage i s = ⟨.alreadyDone img.processedPath, 0, s⟩) ∧
     (img.resizeStatus ≠ "processing" → img.resizeStatus ≠ "done" →
        handleResizeImage i s = ⟨.started, 1, s⟩ ∧ TriggerResp.started.code = 202)) ∧
    ((img.thumbnailStatus = "processing" →
        handleThumbnailImage i s = ⟨.alreadyInProgress, 0, s⟩) ∧
     (img.thumbnailStatus = "done" →
        handleThumbnailImage i s = ⟨.alreadyDone img.thumbnailPath, 0, s⟩) ∧
     (img.thumbnailStatus ≠ "processing" → img.thumbnailStatus ≠ "done" →
        handleThumbnailImage i s = ⟨.started, 1, s⟩ ∧ TriggerResp.started.code = 202)) ∧
    ((img.watermarkStatus = "processing" →
        handleWatermarkImage i s = ⟨.alreadyInProgress, 0, s⟩) ∧
     (img.watermarkStatus = "done" →
        handleWatermarkImage i s = ⟨.alreadyDone img.watermarkedPath, 0, s⟩) ∧
     (img.watermarkStatus ≠ "processing" → img.watermarkStatus ≠ "done" →
        handleWatermarkImage i s = ⟨.started, 1, s⟩ ∧ TriggerResp.started.code = 202)) := by
  refine ⟨⟨?_, ?_, ?_⟩, ⟨?_, ?_, ?_⟩, ⟨?_, ?_, ?_⟩⟩ <;>
    intros <;>
    simp_all [handleResizeImage, handleThumbnailImage, handleWatermarkImage,
      TriggerResp.code]

/-- Witness for C4 at a concrete input: a record with every stage status
"pending" (so the "otherwise" branches dispatch one run each). -/
theorem onDemand_trigger_guard_witness :
    GetImage 1 [exRowPending] = some (imageOfRow exRowPending) ∧
    handleResizeImage 1 [exRowPending] = ⟨.started, 1, [exRowPending]⟩ ∧
    handleThumbnailImage 1 [exRowPending] = ⟨.started, 1, [exRowPending]⟩ ∧
    handleWatermarkImage 1 [exRowPending] = ⟨.started, 1, [exRowPending]⟩ :=
  ⟨rfl,
    ((onDemand_trigger_guard 1 [exRowPending] (imageOfRow exRowPending) rfl).1.2.2
      (by decide) (by decide)).1,
    ((onDemand_trigger_guard 1 [exRowPending] (imageOfRow exRowPending) rfl).2.1.2.2
      (by decide) (by decide)).1,
    ((onDemand_trigger_guard 1 [exRowPending] (imageOfRow exRowPending) rfl).2.2.2.2
      (by decide) (by decide)).1⟩

/-- C5 counterexample: `UpdateImage` does not persist all nine fields —
its UPDATE statement never writes `original_path`, so updating a record
whose in-memory `originalPath` ("new.jpg") differs from the stored one
("old.jpg") yields a stored record different from the in-memory one. -/
theorem updateImage_nine_fields_counterexample :
    exImgC5.originalPath = "new.jpg" ∧
    (GetImage 3 (UpdateImage exImgC5 [exRowC5])).map Image.originalPath = some "old.jpg" ∧
    GetImage 3 (UpdateImage exImgC5 [exRowC5]) ≠ some exImgC5 := by
  refine ⟨rfl, rfl, ?_⟩
  decide

/-- C5 (amended): `UpdateImage` persists, in one operation, eight of the
nine fields — all but `original_path` (the id is the key): after
`update(r)` the stored record equals `r` in those eight fields, while
`original_path` keeps its previously stored value. -/
theorem updateImage_eight_fields (img : Image) (s : Store)
    (hpres : hasId img.id s = true) :
    ∃ orig, (GetImage img.id s).map Image.originalPath = some orig ∧
      GetImage img.id (UpdateImage img s) = some { img with originalPath := orig } :=
  getImage_update_present img img.id s hpres rfl

/-- Witness for the amended C5 at a concrete input. -/
theorem updateImage_eight_fields_witness :
    hasId exImgC5.id [exRowC5] = true ∧
    ∃ orig, (GetImage exImgC5.id [exRowC5]).map Image.originalPath = some orig ∧
      GetImage exImgC5.id (UpdateImage exImgC5 [exRowC5]) =
        some { exImgC5 with originalPath := orig } :=
  ⟨rfl, updateImage_eight_fields exImgC5 [exRowC5] rfl⟩

/-- C6: `handleGetThumbnail` keys its branch on the AGGREGATE status, not
on the thumbnail stage status: for a record whose thumbnail stage is
"done" (file present) but whose aggregate is "partial", it serves the
original instead of the thumbnail — while `handleGetWatermarkedImage`, on
the mirror-image record, keys on the stage status and serves the
watermarked file. -/
theorem handleGetThumbnail_keyed_on_aggregate :
    (imageOfRow exRowC6).thumbnailStatus = "done" ∧
    fileExists exFS6 (imageOfRow exRowC6).thumbnailPath = true ∧
    handleGetThumbnail exFS6 4 [exRowC6] = .file "o6.jpg" ∧
    handleGetThumbnail exFS6 4 [exRowC6] ≠ .file "t6.jpg" ∧
    (imageOfRow exRowC6w).watermarkStatus = "done" ∧
    handleGetWatermarkedImage exFS6w 5 [exRowC6w] = .file "w7.jpg" := by
  refine ⟨rfl, rfl, ?_, ?_, rfl, ?_⟩ <;> decide

/-- C7: round-trip through the metadata store — a successful
`SaveImage` followed by `GetImage` of the same id returns a record equal
to the saved one in all nine fields. -/
theorem saveImage_getImage_roundtrip (img : Image) (s s' : Store)
    (h : SaveImage img s = some s') : GetImage img.id s' = some img := by
  unfold SaveImage at h
  by_cases hany : s.any (fun r => r.id == img.id) = true
  · rw [if_pos hany] at h
    exact absurd h (by simp)
  · rw [if_neg hany] at h
    have hs' : s' = rowOfImage img :: s := by
      injection h with h'
      exact h'.symm
    subst hs'
    unfold GetImage
    rw [List.find?_cons_of_pos _ (by simp [rowOfImage])]
    rfl

/-- Witness for C7 at a concrete input: insert into the empty store and
read back. -/
theorem saveImage_getImage_roundtrip_witness :
    SaveImage exImgC7 [] = some [rowOfImage exImgC7] ∧
    GetImage exImgC7.id [rowOfImage exImgC7] = some exImgC7 :=
  ⟨rfl, saveImage_getImage_roundtrip exImgC7 [] [rowOfImage exImgC7] rfl⟩

/-- C8: an upload whose bytes fail validation — unsupported sniffed
content type, size over 10 MiB, or bytes that do not decode — answers 400,
creates no record (the store is unchanged, so any subsequent get is
unaffected), and leaves the file system as it was (the partially written
file is removed in the decode-failure case). -/
theorem handleUpload_validation_failure (cfg : Config) (env : UploadEnv)
    (id : Nat) (filename : String) (s : Store) (fs : FS)
    (hm : env.mkdirOK = true) (hc : env.createOK = true)
    (ho : env.openOK = true) (hcp : env.copyOK = true)
    (hval : validContentType env.contentType = false ∨
            10 * 1024 * 1024 < env.size ∨ env.decodeOK = false) :
    handleUpload cfg env id filename s fs = ⟨400, s, fs⟩ := by
  unfold handleUpload
  rcases hval with hv | hv | hv
  · rw [if_pos hv]
  · by_cases hct : validContentType env.contentType = false
    · rw [if_pos hct]
    · rw [if_neg hct, if_pos hv]
  · by_cases hct : validContentType env.contentType = false
    · rw [if_pos hct]
    · rw [if_neg hct]
      by_cases hsz : 10 * 1024 * 1024 < env.size
      · rw [if_pos hsz]
      · rw [if_neg hsz]
        simp [hm, hc, ho, hcp, hv]

/-- Witness for C8 at a concrete input: corrupted bytes (sniffed type ok,
decode fails) on the empty store and empty file system. -/
theorem handleUpload_validation_failure_witness :
    exEnvUploadCorrupt.mkdirOK = true ∧ exEnvUploadCorrupt.createOK = true ∧
    exEnvUploadCorrupt.openOK = true ∧ exEnvUploadCorrupt.copyOK = true ∧
    exEnvUploadCorrupt.decodeOK = false ∧
    handleUpload exCfg exEnvUploadCorrupt 9 "f.jpg" [] [] = ⟨400, [], []⟩ :=
  ⟨rfl, rfl, rfl, rfl, rfl,
    handleUpload_validation_failure exCfg exEnvUploadCorrupt 9 "f.jpg" [] []
      rfl rfl rfl rfl (Or.inr (Or.inr rfl))⟩

/-- C9: every `UpdateImage`, by any stage executor or by the orchestrator,
leaves the stored `original_path` of every record unchanged — `UpdateImage`
simply never writes that column, so it keeps the value set at creation. -/
theorem updateImage_preserves_originalPath (img : Image) (i : Nat) (s : Store) :
    (GetImage i (UpdateImage img s)).map Image.originalPath =
      (GetImage i s).map Image.originalPath := by
  rw [getImage_update]
  unfold GetImage
  cases hf : s.find? (fun r => r.id == i) with
  | none => rfl
  | some r =>
    simp only [Option.map_some']
    rw [show (imageOfRow (applyUpdate img r)).originalPath = r.originalPath from by
      rw [show (imageOfRow (applyUpdate img r)).originalPath =
          (applyUpdate img r).originalPath from rfl, applyUpdate_originalPath]]
    rfl

theorem string_data_eq_nil {s : String} (h : s.data = []) : s = "" := by
  cases s with
  | mk d =>
    rw [show (String.mk d).data = d from rfl] at h
    rw [h]

theorem goToLower_ne_empty {s : String} (h : s ≠ "") : goToLower s ≠ "" := by
  intro he
  apply h
  have hdata : s.data.map lowerChar = [] := congrArg String.data he
  exact string_data_eq_nil (List.map_eq_nil_iff.mp hdata)

/-- C10: the path `handleUpload` stores the original under ends in ".jpg"
when the client-supplied filename has no extension (in the code's sense:
`filepath.Ext` returns ""), and otherwise in the lower-cased extension of
the supplied filename. -/
theorem uploadOriginalPath_extension (sp idStr fn : String) :
    (goExt fn = "" →
      uploadOriginalPath sp idStr fn = (sp ++ "/original/" ++ idStr) ++ ".jpg") ∧
    (goExt fn ≠ "" →
      uploadOriginalPath sp idStr fn =
        (sp ++ "/original/" ++ idStr) ++ goToLower (goExt fn)) := by
  constructor
  · intro h
    unfold uploadOriginalPath uploadExt
    rw [h]
    rfl
  · intro h
    unfold uploadOriginalPath uploadExt
    rw [if_neg (goToLower_ne_empty h)]

/-- Witness for C10 at concrete inputs: "photo" has no extension and gets
".jpg"; "PHOTO.JPG" keeps its extension lower-cased to ".jpg" via
`goToLower`. -/
theorem uploadOriginalPath_extension_witness :
    goExt "photo" = "" ∧
    uploadOriginalPath "st" "id1" "photo" = ("st" ++ "/original/" ++ "id1") ++ ".jpg" ∧
    goExt "PHOTO.JPG" ≠ "" ∧ goToLower (goExt "PHOTO.JPG") = ".jpg" ∧
    uploadOriginalPath "st" "id1" "PHOTO.JPG" =
      ("st" ++ "/original/" ++ "id1") ++ goToLower (goExt "PHOTO.JPG") :=
  ⟨rfl, (uploadOriginalPath_extension "st" "id1" "photo").1 rfl,
    by decide, by decide,
    (uploadOriginalPath_extension "st" "id1" "PHOTO.JPG").2 (by decide)⟩

end WB
